import Mathlib

/-!
# Verification of the Nasdaq impulse-alert scanners

Shallow embedding of the two scripts `src/impulse_scanner.py` and
`src/2impulse_scanner.py`.

Modelling conventions:
* A candle frame is represented by its `Close` column.  For
  `impulse_scanner.py` the closes are plain rationals (`List ℚ`); for
  `2impulse_scanner.py` a row's close is `Option ℚ`, with `none` standing
  for a NaN entry that `dropna()` removes.
* Python floats are modelled by `ℚ`; the EWM recurrence and all thresholds
  of the scripts are exactly representable.
* A function that can raise an exception in Python returns `Option`,
  with `none` standing for the raised exception.
* `os.environ.get` results are `Option String`; Python truthiness of such a
  value (`not BOT_TOKEN`) is `envTruthy`.
-/

/-- One update of pandas `ewm(span=s, adjust=False).mean()`:
`y_t = (1 - a) * y_{t-1} + a * x_t` with `a = 2/(s+1)`. -/
def emaStep (a e x : ℚ) : ℚ := (1 - a) * e + a * x

/-- The EWM output values over the remaining closes, continuing from state `e`. -/
def emaFrom (a e : ℚ) : List ℚ → List ℚ
  | [] => []
  | x :: xs => emaStep a e x :: emaFrom a (emaStep a e x) xs

/-- `df["Close"].ewm(span, adjust=False).mean()` as a list of the same length:
the first output equals the first close, later outputs follow the recurrence. -/
def emaSeries (a : ℚ) : List ℚ → List ℚ
  | [] => []
  | x :: xs => x :: emaFrom a x xs

/-- Smoothing factor of the fast EMA: `FAST_EMA = 5`, `a = 2/(5+1)`. -/
def FAST_ALPHA : ℚ := 1/3

/-- Smoothing factor of the slow EMA: `SLOW_EMA = 20`, `a = 2/(20+1)`. -/
def SLOW_ALPHA : ℚ := 2/21

/-- `df2["ema_*"].iloc[-1]`: last value of an EWM series (0 for an empty frame,
which `detect_direction_and_wave` never reaches). -/
def emaLast (a : ℚ) (closes : List ℚ) : ℚ := (emaSeries a closes).getLastD 0

/-- `df2["ema_*"].iloc[-3]`: the EWM value three rows from the end, i.e. at
index `len - 3` (the caller guarantees `len ≥ 3`). -/
def emaPrev (a : ℚ) (closes : List ℚ) : ℚ :=
  (emaSeries a closes).getD (closes.length - 3) 0

/-- `(ema - prev) / prev if prev != 0 else 0.0` (impulse_scanner.py lines 174-175). -/
def emaSlope (a : ℚ) (closes : List ℚ) : ℚ :=
  if emaPrev a closes ≠ 0 then (emaLast a closes - emaPrev a closes) / emaPrev a closes
  else 0

def ema_fast_last (closes : List ℚ) : ℚ := emaLast FAST_ALPHA closes

def ema_slow_last (closes : List ℚ) : ℚ := emaLast SLOW_ALPHA closes

def prev_fast (closes : List ℚ) : ℚ := emaPrev FAST_ALPHA closes

def prev_slow (closes : List ℚ) : ℚ := emaPrev SLOW_ALPHA closes

def slope_fast (closes : List ℚ) : ℚ := emaSlope FAST_ALPHA closes

def slope_slow (closes : List ℚ) : ℚ := emaSlope SLOW_ALPHA closes

/-- `impulse_scanner.py` lines 130-194, `detect_direction_and_wave(df)`.
The frame is represented by its close column; `none` is a `None` frame.
Returns `(direction, wave)`.  The `"Insufficient EMA"`, `"Bad numeric"` and
`"Error"` branches are unreachable for a frame of numeric closes and are not
modelled. -/
def detect_direction_and_wave (df : Option (List ℚ)) : String × String :=
  match df with
  | none => ("Unknown", "No data")
  | some closes =>
    if closes.length = 0 then ("Unknown", "No data")
    else if closes.length < 3 then ("Unknown", "Insufficient data")
    else
      if slope_fast closes > 0 ∧ slope_slow closes > 0 ∧
          ema_fast_last closes > ema_slow_last closes then
        ("Buy", if slope_fast closes > 1/1000 then "Impulse" else "Correction/weak")
      else if slope_fast closes < 0 ∧ slope_slow closes < 0 ∧
          ema_fast_last closes < ema_slow_last closes then
        ("Sell", if slope_fast closes < -(1/1000) then "Impulse" else "Correction/weak")
      else
        ("Neutral", "Correction/No impulse")

/-- `2impulse_scanner.py` lines 35-51, `detect_impulse(df)`.
A row's close is `Option ℚ` (`none` = NaN, removed by `dropna()`).
Returns `some (wave, direction)` — the call site unpacks
`wave, dir_short = detect_impulse(df)` — or `none` when the Python code
would raise `IndexError` (`closes[-3]` on fewer than 3 non-NaN closes).
The dead `yf.download` inside `try/except: pass` (lines 47-50) has no
effect on the result and is not modelled. -/
def detect_impulse (df : Option (List (Option ℚ))) : Option (String × String) :=
  match df with
  | none => some ("Unknown", "Neutral")
  | some rows =>
    if rows.length < 3 then some ("Unknown", "Neutral")
    else
      let closes := rows.filterMap id
      if closes.length < 3 then none
      else
        let a := closes.getD (closes.length - 3) 0
        let b := closes.getD (closes.length - 2) 0
        let c := closes.getD (closes.length - 1) 0
        if a < b ∧ b < c then some ("Impulse", "Buy")
        else if c < b ∧ b < a then some ("Impulse", "Sell")
        else some ("Correction", "Neutral")

/-- Python truthiness of an `os.environ.get` result: `None` and the empty
string are falsy. -/
def envTruthy : Option String → Bool
  | none => false
  | some s => !s.isEmpty

/-- Configuration read from the process environment by `impulse_scanner.py`
lines 39-43 (the five `os.environ.get` results). -/
structure Env where
  bot_token : Option String
  chat_id : Option String
  email_address : Option String
  email_password : Option String
  email_to : Option String

/-- Guard of `send_telegram` (impulse_scanner.py line 48):
`not BOT_TOKEN or not CHAT_ID` means not configured. -/
def telegram_configured (e : Env) : Bool :=
  envTruthy e.bot_token && envTruthy e.chat_id

/-- Guard of `send_email` (impulse_scanner.py line 62). -/
def email_configured (e : Env) : Bool :=
  envTruthy e.email_address && envTruthy e.email_password && envTruthy e.email_to

/-- `2impulse_scanner.py` lines 6-9: at import time, before any other code
runs, the script raises `SystemExit` when `BOT_TOKEN` or `CHAT_ID` is
missing/empty.  `true` means the run aborts. -/
def startup_aborts (bot_token chat_id : Option String) : Bool :=
  !envTruthy bot_token || !envTruthy chat_id

/-- Observable trace of one `main()` run of `impulse_scanner.py`
(lines 301-323): `scan_all` first fetches every symbol in `SYMBOLS`
unconditionally, then `send_telegram` and `send_email` each check their
configuration and return `False` without raising when unconfigured;
`tgOk`/`emOk` model whether the external delivery itself succeeds. -/
structure RunTrace where
  fetches : ℕ
  telegram_attempted : Bool
  email_attempted : Bool
  telegram_sent : Bool
  email_sent : Bool
  aborted : Bool

/-- `impulse_scanner.py main()`: the fetch loop runs over all symbols before
any configuration check; missing configuration never aborts the run. -/
def mainRun (e : Env) (symbols : List String) (tgOk emOk : Bool) : RunTrace :=
  { fetches := symbols.length
  , telegram_attempted := telegram_configured e
  , email_attempted := email_configured e
  , telegram_sent := telegram_configured e && tgOk
  , email_sent := email_configured e && emOk
  , aborted := false }

/-- Fixed-point rendering of a rational with `prec` decimal digits, modelling
Python's `f"{v:.{prec}f}"` (rounding half away from zero here, in place of the
binary float's round-half-even). -/
def fmtFixed (prec : ℕ) (v : ℚ) : String :=
  let scale : ℤ := (10 : ℤ) ^ prec
  let n : ℤ := Int.floor (|v| * (scale : ℚ) + 1/2)
  let ip := n / scale
  let fp := n % scale
  let fpStr := toString fp.toNat
  let pad := String.mk (List.replicate (prec - fpStr.length) '0')
  (if v < 0 then "-" else "") ++ toString ip.toNat ++ "." ++ pad ++ fpStr

/-- One row of a fetched frame for `impulse_scanner.py`.  A pandas timestamp
index entry is modelled by its rendered UTC string (`strftime`, abstracted)
together with its UTC hour, which is all `build_message`/`zone_from_time`
read from it. -/
structure Row where
  ts_str : String
  hour : ℕ
  close : ℚ
deriving Repr, DecidableEq

/-- `impulse_scanner.py` lines 196-214, `zone_from_time`, on the UTC hour. -/
def zone_from_time (hour : ℕ) : String :=
  if 5 ≤ hour ∧ hour ≤ 9 then "London"
  else if 11 ≤ hour ∧ hour ≤ 14 then "New York"
  else "Other"

/-- `DEFAULT_TP_PCT = 0.5` (percent). -/
def DEFAULT_TP_PCT : ℚ := 1/2

/-- `DEFAULT_SL_PCT = 0.5` (percent). -/
def DEFAULT_SL_PCT : ℚ := 1/2

/-- `impulse_scanner.py` lines 225-280, `build_message`. -/
def build_message (symbol : String) (df : Option (List Row)) (direction wave : String) :
    String :=
  let base :=
    match df with
    | none => ("No data", "N/A", "Unknown")
    | some [] => ("No data", "N/A", "Unknown")
    | some rows =>
      let lastRow := rows.getLastD ⟨"", 0, 0⟩
      (lastRow.ts_str, fmtFixed 6 lastRow.close, zone_from_time lastRow.hour)
  let tpsl : Option (String × String) :=
    match df with
    | none => none
    | some [] => none
    | some rows =>
      let px := (rows.getLastD ⟨"", 0, 0⟩).close
      if direction = "Buy" then
        some (fmtFixed 6 (px * (1 + DEFAULT_TP_PCT / 100)),
              fmtFixed 6 (px * (1 - DEFAULT_SL_PCT / 100)))
      else if direction = "Sell" then
        some (fmtFixed 6 (px * (1 - DEFAULT_TP_PCT / 100)),
              fmtFixed 6 (px * (1 + DEFAULT_SL_PCT / 100)))
      else none
  let txt := symbol ++ "\n" ++
    "Time: " ++ base.1 ++ "\n" ++
    "Price: " ++ base.2.1 ++ "\n" ++
    "Direction: " ++ direction ++ "\n" ++
    "Wave: " ++ wave ++ "\n" ++
    "Zone: " ++ base.2.2 ++ "\n"
  match tpsl with
  | some (tp, sl) => txt ++ "TP: " ++ tp ++ "  SL: " ++ sl ++ "\n"
  | none => txt

/-- The body of one iteration of the `scan_all` loop (impulse_scanner.py
lines 287-298): a failed fetch (`df is None`) contributes the part
`"<symbol> - No data"` and the loop continues with the next symbol. -/
def scan_one (s : String) (df : Option (List Row)) : String :=
  match df with
  | none => s ++ " - No data"
  | some rows =>
    let dw := detect_direction_and_wave (some (rows.map Row.close))
    build_message s (some rows) dw.1 dw.2

/-- The list of per-symbol parts accumulated by `scan_all`, as a function of
each symbol's fetch result. -/
def scan_parts (fetched : List (String × Option (List Row))) : List String :=
  fetched.map (fun p => scan_one p.1 p.2)

/-- `impulse_scanner.py` lines 284-299, `scan_all`: join of the parts. -/
def scan_all (fetched : List (String × Option (List Row))) : String :=
  String.intercalate "\n\n" (scan_parts fetched)

/-- `2impulse_scanner.py` lines 53-65, `higher_timeframe_bias`, as a function
of the fetched 1-hour close column; `none` models a failed download (the
`except` path returns `"Neutral"`). `rolling(20).mean().iloc[-1]` is the mean
of the last 20 closes. -/
def higher_timeframe_bias (h : Option (List ℚ)) : String :=
  match h with
  | none => "Neutral"
  | some closes =>
    if closes.length < 20 then "Neutral"
    else
      let sma20 := (closes.drop (closes.length - 20)).sum / 20
      let lastClose := closes.getLastD 0
      if lastClose > sma20 then "Buy"
      else if lastClose < sma20 then "Sell"
      else "Neutral"

/-- One iteration of the `build_report` loop (`2impulse_scanner.py` lines
72-92) for a single symbol, as a function of that symbol's 5-minute fetch
(`df5`, with `none` for a failed fetch) and 1-hour fetch (`df1h`).
Returns the lines appended to the report, or `none` when the iteration
raises (propagating `detect_impulse`'s `IndexError`, or
`df['Close'].dropna().iloc[-1]` on a frame with rows but no non-NaN close). -/
def symbol_block (name symTicker : String) (df5 : Option (List (Option ℚ)))
    (df1h : Option (List ℚ)) : Option (List String) :=
  match detect_impulse df5 with
  | none => none
  | some wd =>
    let wave := wd.1
    let dir_short := wd.2
    let ht_bias := higher_timeframe_bias df1h
    let direction :=
      if dir_short = "Neutral" then ht_bias
      else if ht_bias = "Neutral" then dir_short
      else if dir_short = ht_bias then dir_short
      else ht_bias
    let header := name ++ " (" ++ symTicker ++ "):"
    let line2 := "  Wave: " ++ wave ++ " | Short: " ++ dir_short ++
      " | HTF bias: " ++ ht_bias ++ " -> Final: " ++ direction
    match df5 with
    | none => some [header, line2, ""]
    | some rows =>
      if rows.length > 0 then
        match (rows.filterMap id).getLast? with
        | none => none
        | some lastClose => some [header, line2, "  Last: " ++ fmtFixed 5 lastClose, ""]
      else some [header, line2, ""]

/-- The per-symbol blocks of `build_report`, as a function of all fetch
results (name, ticker, 5-minute frame, 1-hour closes). -/
def report_blocks
    (inputs : List (String × String × Option (List (Option ℚ)) × Option (List ℚ))) :
    List (Option (List String)) :=
  inputs.map (fun t => symbol_block t.1 t.2.1 t.2.2.1 t.2.2.2)

/-! ## Structural lemmas about the EWM series -/

lemma emaFrom_length (a : ℚ) : ∀ (xs : List ℚ) (e : ℚ), (emaFrom a e xs).length = xs.length
  | [], _ => rfl
  | x :: xs, e => by simp [emaFrom, emaFrom_length a xs]

lemma emaSeries_length (a : ℚ) (xs : List ℚ) : (emaSeries a xs).length = xs.length := by
  cases xs with
  | nil => rfl
  | cons x t => simp [emaSeries, emaFrom_length]

lemma getLastD_eq_getD : ∀ (l : List ℚ) (d : ℚ), l ≠ [] →
    l.getLastD d = l.getD (l.length - 1) 0
  | [], _, h => absurd rfl h
  | [x], _, _ => rfl
  | x :: y :: r, d, _ => by
    have ih := getLastD_eq_getD (y :: r) x (by simp)
    have h1 : (x :: y :: r).length - 1 = r.length + 1 := by simp
    rw [List.getLastD_cons, ih, h1, List.getD_cons_succ]
    simp

lemma chainLt_getD_lt {l : List ℚ} (hc : List.Chain' (· < ·) l) {i j : ℕ}
    (hij : i < j) (hj : j < l.length) : l.getD i 0 < l.getD j 0 := by
  have hp : l.Pairwise (· < ·) := List.chain'_iff_pairwise.mp hc
  have hi : i < l.length := lt_trans hij hj
  rw [List.getD_eq_getElem _ _ hi, List.getD_eq_getElem _ _ hj]
  exact List.pairwise_iff_getElem.mp hp i j hi hj hij

lemma getD_mem {l : List ℚ} {i : ℕ} (h : i < l.length) : l.getD i 0 ∈ l := by
  rw [List.getD_eq_getElem _ _ h]
  exact List.getElem_mem h

/-! ## Sign and ordering facts about the EWM recurrence -/

lemma chain_le_head (a b : ℚ) (l : List ℚ) (hab : a ≤ b)
    (h : List.Chain' (· < ·) (b :: l)) : List.Chain' (· < ·) (a :: l) := by
  cases l with
  | nil => simp
  | cons y ys =>
    rw [List.chain'_cons] at h ⊢
    exact ⟨lt_of_le_of_lt hab h.1, h.2⟩

lemma emaFrom_chainLt (a : ℚ) (h0 : 0 < a) (h1 : a < 1) :
    ∀ (xs : List ℚ) (e : ℚ), List.Chain' (· < ·) (e :: xs) →
      List.Chain' (· < ·) (e :: emaFrom a e xs)
  | [], e, _ => by simp [emaFrom]
  | x :: xs, e, h => by
    rw [List.chain'_cons] at h
    have hex : e < x := h.1
    have hstep1 : e < emaStep a e x := by
      unfold emaStep
      nlinarith [mul_pos h0 (sub_pos.mpr hex)]
    have hstep2 : emaStep a e x < x := by
      unfold emaStep
      nlinarith [mul_pos (sub_pos.mpr h1) (sub_pos.mpr hex)]
    have hcons : List.Chain' (· < ·) (emaStep a e x :: xs) :=
      chain_le_head _ _ _ (le_of_lt hstep2) h.2
    have ih := emaFrom_chainLt a h0 h1 xs (emaStep a e x) hcons
    rw [show emaFrom a e (x :: xs) = emaStep a e x :: emaFrom a (emaStep a e x) xs from rfl,
      List.chain'_cons]
    exact ⟨hstep1, ih⟩

lemma emaSeries_chainLt (a : ℚ) (h0 : 0 < a) (h1 : a < 1) (xs : List ℚ)
    (hc : List.Chain' (· < ·) xs) : List.Chain' (· < ·) (emaSeries a xs) := by
  cases xs with
  | nil => simp [emaSeries]
  | cons x t => exact emaFrom_chainLt a h0 h1 t x hc

lemma emaFrom_pos (a : ℚ) (h0 : 0 < a) (h1 : a < 1) :
    ∀ (xs : List ℚ) (e : ℚ), 0 < e → (∀ x ∈ xs, 0 < x) →
      ∀ y ∈ emaFrom a e xs, 0 < y
  | [], _, _, _ => by simp [emaFrom]
  | x :: xs, e, he, hx => by
    have hx0 : 0 < x := hx x (by simp)
    have hstep : 0 < emaStep a e x := by
      unfold emaStep
      nlinarith [mul_pos (sub_pos.mpr h1) he, mul_pos h0 hx0]
    intro y hy
    rw [show emaFrom a e (x :: xs) = emaStep a e x :: emaFrom a (emaStep a e x) xs from rfl,
      List.mem_cons] at hy
    rcases hy with hy | hy
    · exact hy ▸ hstep
    · exact emaFrom_pos a h0 h1 xs (emaStep a e x) hstep
        (fun z hz => hx z (List.mem_cons_of_mem x hz)) y hy

lemma emaSeries_pos (a : ℚ) (h0 : 0 < a) (h1 : a < 1) (xs : List ℚ)
    (hx : ∀ x ∈ xs, 0 < x) : ∀ y ∈ emaSeries a xs, 0 < y := by
  cases xs with
  | nil => simp [emaSeries]
  | cons x t =>
    intro y hy
    rw [show emaSeries a (x :: t) = x :: emaFrom a x t from rfl, List.mem_cons] at hy
    rcases hy with hy | hy
    · exact hy ▸ hx x (by simp)
    · exact emaFrom_pos a h0 h1 t x (hx x (by simp))
        (fun z hz => hx z (List.mem_cons_of_mem x hz)) y hy

/-- Coupled induction: with a larger smoothing factor the EWM series ends
strictly above the one with a smaller factor, over a strictly increasing
close sequence. -/
lemma emaFrom_pair_lt (aF aS : ℚ) (hs0 : 0 < aS) (hsf : aS < aF) (hf1 : aF < 1) :
    ∀ (xs : List ℚ) (ef es : ℚ), es ≤ ef → List.Chain' (· < ·) (ef :: xs) → xs ≠ [] →
      (emaFrom aS es xs).getLastD es < (emaFrom aF ef xs).getLastD ef
  | [], _, _, _, _, hne => absurd rfl hne
  | x :: xs, ef, es, hle, hch, _ => by
    rw [List.chain'_cons] at hch
    have hefx : ef < x := hch.1
    have hesx : es < x := lt_of_le_of_lt hle hefx
    have hpair : emaStep aS es x < emaStep aF ef x := by
      unfold emaStep
      nlinarith [mul_nonneg (le_of_lt (sub_pos.mpr hf1)) (sub_nonneg.mpr hle),
        mul_pos (sub_pos.mpr hsf) (sub_pos.mpr hesx)]
    have hstepx : emaStep aF ef x < x := by
      unfold emaStep
      nlinarith [mul_pos (sub_pos.mpr hf1) (sub_pos.mpr hefx)]
    cases xs with
    | nil =>
      simpa [emaFrom, List.getLastD_cons] using hpair
    | cons y ys =>
      have hch2 : List.Chain' (· < ·) (emaStep aF ef x :: y :: ys) :=
        chain_le_head _ _ _ (le_of_lt hstepx) hch.2
      have ih := emaFrom_pair_lt aF aS hs0 hsf hf1 (y :: ys)
        (emaStep aF ef x) (emaStep aS es x) (le_of_lt hpair) hch2 (by simp)
      rw [show emaFrom aS es (x :: y :: ys) =
            emaStep aS es x :: emaFrom aS (emaStep aS es x) (y :: ys) from rfl,
        show emaFrom aF ef (x :: y :: ys) =
            emaStep aF ef x :: emaFrom aF (emaStep aF ef x) (y :: ys) from rfl,
        List.getLastD_cons, List.getLastD_cons]
      exact ih

/-! ## Negation symmetry, used to transfer the increasing-case lemmas to the
strictly decreasing case -/

lemma emaStep_neg (a e x : ℚ) : emaStep a (-e) (-x) = -emaStep a e x := by
  unfold emaStep; ring

lemma emaFrom_neg (a : ℚ) : ∀ (xs : List ℚ) (e : ℚ),
    emaFrom a (-e) (xs.map (fun z => -z)) = (emaFrom a e xs).map (fun z => -z)
  | [], _ => rfl
  | x :: xs, e => by
    have ih := emaFrom_neg a xs (emaStep a e x)
    simp only [List.map_cons, emaFrom, emaStep_neg]
    rw [ih]

lemma emaSeries_neg (a : ℚ) (xs : List ℚ) :
    emaSeries a (xs.map (fun z => -z)) = (emaSeries a xs).map (fun z => -z) := by
  cases xs with
  | nil => rfl
  | cons x t =>
    simp only [List.map_cons, emaSeries]
    rw [emaFrom_neg]

lemma getD_map_neg (l : List ℚ) (i : ℕ) :
    (l.map (fun z => -z)).getD i 0 = -(l.getD i 0) := by
  induction l generalizing i with
  | nil => simp
  | cons x xs ih =>
    cases i with
    | zero => simp
    | succ n => simpa using ih n

lemma getLastD_map_neg (l : List ℚ) (d : ℚ) :
    (l.map (fun z => -z)).getLastD (-d) = -(l.getLastD d) :=
  List.getLastD_map (fun z => -z) l d

lemma chain_gt_iff_neg_lt (l : List ℚ) :
    List.Chain' (· > ·) l ↔ List.Chain' (· < ·) (l.map (fun z => -z)) := by
  rw [List.chain'_map]
  constructor
  · exact fun h => h.imp (fun a b hab => by simpa using hab)
  · exact fun h => h.imp (fun a b hab => by simpa using hab)

lemma emaSeries_chainGt (a : ℚ) (h0 : 0 < a) (h1 : a < 1) (xs : List ℚ)
    (hc : List.Chain' (· > ·) xs) : List.Chain' (· > ·) (emaSeries a xs) := by
  rw [chain_gt_iff_neg_lt] at hc ⊢
  rw [← emaSeries_neg]
  exact emaSeries_chainLt a h0 h1 _ hc

lemma chainGt_getD_lt {l : List ℚ} (hc : List.Chain' (· > ·) l) {i j : ℕ}
    (hij : i < j) (hj : j < l.length) : l.getD j 0 < l.getD i 0 := by
  have h := chainLt_getD_lt ((chain_gt_iff_neg_lt l).mp hc) hij
    (by simpa using hj)
  rw [getD_map_neg, getD_map_neg] at h
  linarith

/-! ## Slope sign and branch selection -/

lemma emaSlope_pos (a : ℚ) (h0 : 0 < a) (h1 : a < 1) (closes : List ℚ)
    (h3 : 3 ≤ closes.length) (hpos : ∀ x ∈ closes, 0 < x)
    (hc : List.Chain' (· < ·) closes) : 0 < emaSlope a closes := by
  have hlen : (emaSeries a closes).length = closes.length := emaSeries_length a closes
  have hne : emaSeries a closes ≠ [] := by
    intro h
    rw [h] at hlen
    simp at hlen
    omega
  have hprev_pos : 0 < emaPrev a closes :=
    emaSeries_pos a h0 h1 closes hpos _ (getD_mem (by omega))
  have hchain := emaSeries_chainLt a h0 h1 closes hc
  have hlast : emaLast a closes =
      (emaSeries a closes).getD ((emaSeries a closes).length - 1) 0 :=
    getLastD_eq_getD _ 0 hne
  have hlt : emaPrev a closes < emaLast a closes := by
    rw [hlast, hlen]
    exact chainLt_getD_lt hchain (by omega) (by omega)
  unfold emaSlope
  rw [if_pos (ne_of_gt hprev_pos)]
  exact div_pos (sub_pos.mpr hlt) hprev_pos

lemma emaSlope_neg_of_dec (a : ℚ) (h0 : 0 < a) (h1 : a < 1) (closes : List ℚ)
    (h3 : 3 ≤ closes.length) (hpos : ∀ x ∈ closes, 0 < x)
    (hc : List.Chain' (· > ·) closes) : emaSlope a closes < 0 := by
  have hlen : (emaSeries a closes).length = closes.length := emaSeries_length a closes
  have hne : emaSeries a closes ≠ [] := by
    intro h
    rw [h] at hlen
    simp at hlen
    omega
  have hprev_pos : 0 < emaPrev a closes :=
    emaSeries_pos a h0 h1 closes hpos _ (getD_mem (by omega))
  have hchain := emaSeries_chainGt a h0 h1 closes hc
  have hlast : emaLast a closes =
      (emaSeries a closes).getD ((emaSeries a closes).length - 1) 0 :=
    getLastD_eq_getD _ 0 hne
  have hlt : emaLast a closes < emaPrev a closes := by
    rw [hlast, hlen]
    exact chainGt_getD_lt hchain (by omega) (by omega)
  unfold emaSlope
  rw [if_pos (ne_of_gt hprev_pos)]
  exact div_neg_of_neg_of_pos (sub_neg.mpr hlt) hprev_pos

lemma ema_fast_gt_slow (closes : List ℚ) (h3 : 3 ≤ closes.length)
    (hc : List.Chain' (· < ·) closes) : ema_slow_last closes < ema_fast_last closes := by
  match closes, h3 with
  | x :: y :: z :: rest, _ =>
    have hne : (y :: z :: rest) ≠ ([] : List ℚ) := by simp
    have h := emaFrom_pair_lt FAST_ALPHA SLOW_ALPHA (by norm_num [SLOW_ALPHA])
      (by norm_num [FAST_ALPHA, SLOW_ALPHA]) (by norm_num [FAST_ALPHA])
      (y :: z :: rest) x x le_rfl hc hne
    simpa [ema_fast_last, ema_slow_last, emaLast, emaSeries, List.getLastD_cons] using h

lemma ema_last_map_neg (a : ℚ) (closes : List ℚ) :
    emaLast a (closes.map (fun z => -z)) = -(emaLast a closes) := by
  unfold emaLast
  rw [emaSeries_neg]
  simpa using getLastD_map_neg (emaSeries a closes) 0

lemma ema_fast_lt_slow (closes : List ℚ) (h3 : 3 ≤ closes.length)
    (hc : List.Chain' (· > ·) closes) : ema_fast_last closes < ema_slow_last closes := by
  have hmap : 3 ≤ (closes.map (fun z => -z)).length := by simpa using h3
  have h := ema_fast_gt_slow (closes.map (fun z => -z)) hmap
    ((chain_gt_iff_neg_lt closes).mp hc)
  have hf := ema_last_map_neg FAST_ALPHA closes
  have hs := ema_last_map_neg SLOW_ALPHA closes
  unfold ema_fast_last ema_slow_last at h ⊢
  rw [hf, hs] at h
  linarith

lemma detect_ddw_buy (closes : List ℚ) (h3 : 3 ≤ closes.length)
    (hpos : ∀ x ∈ closes, 0 < x) (hc : List.Chain' (· < ·) closes) :
    detect_direction_and_wave (some closes) =
      ("Buy", if slope_fast closes > 1/1000 then "Impulse" else "Correction/weak") := by
  have hf : 0 < slope_fast closes :=
    emaSlope_pos FAST_ALPHA (by norm_num [FAST_ALPHA]) (by norm_num [FAST_ALPHA])
      closes h3 hpos hc
  have hs : 0 < slope_slow closes :=
    emaSlope_pos SLOW_ALPHA (by norm_num [SLOW_ALPHA]) (by norm_num [SLOW_ALPHA])
      closes h3 hpos hc
  have hfs := ema_fast_gt_slow closes h3 hc
  simp only [detect_direction_and_wave]
  rw [if_neg (by omega), if_neg (by omega), if_pos ⟨hf, hs, hfs⟩]

lemma detect_ddw_sell (closes : List ℚ) (h3 : 3 ≤ closes.length)
    (hpos : ∀ x ∈ closes, 0 < x) (hc : List.Chain' (· > ·) closes) :
    detect_direction_and_wave (some closes) =
      ("Sell", if slope_fast closes < -(1/1000) then "Impulse" else "Correction/weak") := by
  have hf : slope_fast closes < 0 :=
    emaSlope_neg_of_dec FAST_ALPHA (by norm_num [FAST_ALPHA]) (by norm_num [FAST_ALPHA])
      closes h3 hpos hc
  have hs : slope_slow closes < 0 :=
    emaSlope_neg_of_dec SLOW_ALPHA (by norm_num [SLOW_ALPHA]) (by norm_num [SLOW_ALPHA])
      closes h3 hpos hc
  have hfs := ema_fast_lt_slow closes h3 hc
  simp only [detect_direction_and_wave]
  rw [if_neg (by omega), if_neg (by omega), if_neg (by intro hcon; linarith [hcon.1]),
    if_pos ⟨hf, hs, hfs⟩]

lemma filterMap_id_map_some (l : List ℚ) : (l.map some).filterMap id = l := by
  induction l with
  | nil => rfl
  | cons x xs ih => simp [ih]

lemma detect_impulse_of_inc (closes : List ℚ) (h3 : 3 ≤ closes.length)
    (hc : List.Chain' (· < ·) closes) :
    detect_impulse (some (closes.map some)) = some ("Impulse", "Buy") := by
  have hlen : (closes.map some).length = closes.length := by simp
  have hfm : (closes.map some).filterMap id = closes := filterMap_id_map_some closes
  have hab : closes.getD (closes.length - 3) 0 < closes.getD (closes.length - 2) 0 :=
    chainLt_getD_lt hc (by omega) (by omega)
  have hbc : closes.getD (closes.length - 2) 0 < closes.getD (closes.length - 1) 0 :=
    chainLt_getD_lt hc (by omega) (by omega)
  simp only [detect_impulse, hfm, hlen]
  rw [if_neg (by omega), if_neg (by omega), if_pos ⟨hab, hbc⟩]

lemma detect_impulse_of_dec (closes : List ℚ) (h3 : 3 ≤ closes.length)
    (hc : List.Chain' (· > ·) closes) :
    detect_impulse (some (closes.map some)) = some ("Impulse", "Sell") := by
  have hlen : (closes.map some).length = closes.length := by simp
  have hfm : (closes.map some).filterMap id = closes := filterMap_id_map_some closes
  have hba : closes.getD (closes.length - 2) 0 < closes.getD (closes.length - 3) 0 :=
    chainGt_getD_lt hc (by omega) (by omega)
  have hcb : closes.getD (closes.length - 1) 0 < closes.getD (closes.length - 2) 0 :=
    chainGt_getD_lt hc (by omega) (by omega)
  simp only [detect_impulse, hfm, hlen]
  rw [if_neg (by omega), if_neg (by omega), if_neg (by intro hcon; linarith [hcon.1]),
    if_pos ⟨hcb, hba⟩]

lemma getD_add_drop : ∀ (i : ℕ) (l : List ℚ) (k : ℕ),
    l.getD (i + k) 0 = (l.drop i).getD k 0
  | 0, l, k => by simp
  | i + 1, [], k => by simp
  | i + 1, x :: t, k => by
    rw [Nat.succ_add, List.getD_cons_succ, List.drop_succ_cons]
    exact getD_add_drop i t k

/-! ## Claim theorems -/

/-- Claim C1, counterexample: on an empty frame `detect_direction_and_wave`
returns direction `"Unknown"`, not `"Neutral"`, and wave `"No data"`, not
`"Correction"`; `detect_impulse` returns wave `"Unknown"` with no
insufficient-data indicator. -/
theorem c1_counterexample :
    detect_direction_and_wave (some []) = ("Unknown", "No data") ∧
    ("Unknown" : String) ≠ "Neutral" ∧ ("No data" : String) ≠ "Correction" ∧
    detect_impulse (some []) = some ("Unknown", "Neutral") ∧
    ("Unknown" : String) ≠ "Correction" := by
  decide

/-- Claim C1 (amended): for every frame shorter than 3 rows (including the
empty frame and a `None` frame) both classifiers return early without
raising: `detect_direction_and_wave` returns `("Unknown", "No data")` for a
`None`/empty frame and `("Unknown", "Insufficient data")` for 1-2 rows;
`detect_impulse` returns wave `"Unknown"` and direction `"Neutral"`. -/
theorem c1_short_input_amended (closes : List ℚ) (rows : List (Option ℚ))
    (h1 : closes.length < 3) (h2 : rows.length < 3) :
    detect_direction_and_wave none = ("Unknown", "No data") ∧
    detect_direction_and_wave (some closes) =
      (if closes.length = 0 then ("Unknown", "No data")
       else ("Unknown", "Insufficient data")) ∧
    detect_impulse none = some ("Unknown", "Neutral") ∧
    detect_impulse (some rows) = some ("Unknown", "Neutral") := by
  refine ⟨rfl, ?_, rfl, ?_⟩
  · by_cases h0 : closes.length = 0
    · simp only [detect_direction_and_wave]
      rw [if_pos h0, if_pos h0]
    · simp only [detect_direction_and_wave]
      rw [if_neg h0, if_neg h0, if_pos h1]
  · simp only [detect_impulse]
    rw [if_pos h2]

theorem c1_short_input_witness :
    detect_direction_and_wave (some [(1:ℚ)]) = ("Unknown", "Insufficient data") ∧
    detect_impulse (some ([] : List (Option ℚ))) = some ("Unknown", "Neutral") := by
  have h := c1_short_input_amended [(1:ℚ)] [] (by norm_num) (by norm_num)
  refine ⟨?_, h.2.2.2⟩
  simpa using h.2.1

/-- Claim C2: for a strictly monotonically increasing close sequence of
length at least 3 (with positive prices) whose fast-EMA slope exceeds the
0.001 threshold, `detect_direction_and_wave` returns Buy/Impulse and
`detect_impulse` returns Impulse/Buy; symmetrically for a strictly
decreasing sequence, Sell/Impulse and Impulse/Sell. -/
theorem c2_monotone_impulse (closes : List ℚ) (h3 : 3 ≤ closes.length)
    (hpos : ∀ x ∈ closes, 0 < x) :
    (List.Chain' (· < ·) closes → slope_fast closes > 1/1000 →
      detect_direction_and_wave (some closes) = ("Buy", "Impulse") ∧
      detect_impulse (some (closes.map some)) = some ("Impulse", "Buy")) ∧
    (List.Chain' (· > ·) closes → slope_fast closes < -(1/1000) →
      detect_direction_and_wave (some closes) = ("Sell", "Impulse") ∧
      detect_impulse (some (closes.map some)) = some ("Impulse", "Sell")) := by
  constructor
  · intro hc hthr
    refine ⟨?_, detect_impulse_of_inc closes h3 hc⟩
    rw [detect_ddw_buy closes h3 hpos hc, if_pos hthr]
  · intro hc hthr
    refine ⟨?_, detect_impulse_of_dec closes h3 hc⟩
    rw [detect_ddw_sell closes h3 hpos hc, if_pos hthr]

theorem c2_monotone_impulse_witness :
    (List.Chain' (· < ·) ([100, 101, 102] : List ℚ) ∧
      slope_fast [100, 101, 102] > 1/1000) ∧
    detect_direction_and_wave (some [100, 101, 102]) = ("Buy", "Impulse") ∧
    detect_impulse (some (([100, 101, 102] : List ℚ).map some)) = some ("Impulse", "Buy") := by
  have hthr : slope_fast [100, 101, 102] > 1/1000 := by
    norm_num [slope_fast, emaSlope, emaPrev, emaLast, emaSeries, emaFrom, emaStep, FAST_ALPHA]
  have hchain : List.Chain' (· < ·) ([100, 101, 102] : List ℚ) := by
    norm_num [List.chain'_cons]
  have hpos : ∀ x ∈ ([100, 101, 102] : List ℚ), 0 < x := by norm_num
  exact ⟨⟨hchain, hthr⟩,
    (c2_monotone_impulse [100, 101, 102] (by norm_num) hpos).1 hchain hthr⟩

/-- Claim C3, counterexample: on closes `[100, 100.01, 100.02]` the fast-EMA
slope is positive but below the 0.001 threshold, yet the returned direction
is `"Buy"`, not `"Neutral"` — the threshold only demotes the wave to
`"Correction/weak"`. -/
theorem c3_counterexample :
    detect_direction_and_wave (some [100, 10001/100, 10002/100]) =
      ("Buy", "Correction/weak") ∧
    0 < slope_fast [100, 10001/100, 10002/100] ∧
    slope_fast [100, 10001/100, 10002/100] < 1/1000 ∧
    ("Buy" : String) ≠ "Neutral" := by
  refine ⟨?_, ?_, ?_, by decide⟩ <;>
    norm_num [detect_direction_and_wave, slope_fast, slope_slow, ema_fast_last,
      ema_slow_last, emaSlope, emaPrev, emaLast, emaSeries, emaFrom, emaStep,
      FAST_ALPHA, SLOW_ALPHA]

/-- Claim C3 (amended): the returned direction has the sign of the fast-EMA
slope (`"Buy"` only if positive, `"Sell"` only if negative, and a zero slope
forces `"Neutral"`); a below-threshold magnitude does not force `"Neutral"` —
the 0.001 threshold only selects between wave `"Impulse"` and
`"Correction/weak"`. -/
theorem c3_direction_sign_amended (closes : List ℚ) (h3 : 3 ≤ closes.length) :
    ((detect_direction_and_wave (some closes)).1 = "Buy" → 0 < slope_fast closes) ∧
    ((detect_direction_and_wave (some closes)).1 = "Sell" → slope_fast closes < 0) ∧
    (slope_fast closes = 0 → (detect_direction_and_wave (some closes)).1 = "Neutral") := by
  simp only [detect_direction_and_wave]
  rw [if_neg (by omega), if_neg (by omega)]
  by_cases h1 : slope_fast closes > 0 ∧ slope_slow closes > 0 ∧
      ema_fast_last closes > ema_slow_last closes
  · rw [if_pos h1]
    exact ⟨fun _ => h1.1,
      fun h => absurd h (show ("Buy" : String) ≠ "Sell" by decide),
      fun h0 => absurd (h0 ▸ h1.1) (lt_irrefl 0)⟩
  · rw [if_neg h1]
    by_cases h2 : slope_fast closes < 0 ∧ slope_slow closes < 0 ∧
        ema_fast_last closes < ema_slow_last closes
    · rw [if_pos h2]
      exact ⟨fun h => absurd h (show ("Sell" : String) ≠ "Buy" by decide),
        fun _ => h2.1,
        fun h0 => absurd (h0 ▸ h2.1) (lt_irrefl 0)⟩
    · rw [if_neg h2]
      exact ⟨fun h => absurd h (show ("Neutral" : String) ≠ "Buy" by decide),
        fun h => absurd h (show ("Neutral" : String) ≠ "Sell" by decide),
        fun _ => rfl⟩

theorem c3_direction_sign_witness :
    (detect_direction_and_wave (some [100, 101, 102])).1 = "Buy" ∧
    0 < slope_fast [100, 101, 102] := by
  have hb : (detect_direction_and_wave (some [100, 101, 102])).1 = "Buy" := by
    norm_num [detect_direction_and_wave, slope_fast, slope_slow, ema_fast_last,
      ema_slow_last, emaSlope, emaPrev, emaLast, emaSeries, emaFrom, emaStep,
      FAST_ALPHA, SLOW_ALPHA]
  exact ⟨hb, (c3_direction_sign_amended [100, 101, 102] (by norm_num)).1 hb⟩

/-- Claim C4, counterexample: the oscillating (non-monotone) close sequence
`[100, 100.02, 100.01, 100.03]` has fast-EMA slope magnitude below the 0.001
threshold, yet `detect_direction_and_wave` returns direction `"Buy"` (wave
`"Correction/weak"`), not Neutral/Correction. -/
theorem c4_counterexample :
    ¬ List.Chain' (· < ·) ([100, 10002/100, 10001/100, 10003/100] : List ℚ) ∧
    ¬ List.Chain' (· > ·) ([100, 10002/100, 10001/100, 10003/100] : List ℚ) ∧
    |slope_fast [100, 10002/100, 10001/100, 10003/100]| < 1/1000 ∧
    detect_direction_and_wave (some [100, 10002/100, 10001/100, 10003/100]) =
      ("Buy", "Correction/weak") := by
  refine ⟨?_, ?_, ?_, ?_⟩ <;>
    norm_num [List.chain'_cons, detect_direction_and_wave, slope_fast, slope_slow,
      ema_fast_last, ema_slow_last, emaSlope, emaPrev, emaLast, emaSeries, emaFrom,
      emaStep, FAST_ALPHA, SLOW_ALPHA, abs_lt]

/-- Claim C4 (amended): when the last three non-NaN closes are not strictly
monotone, `detect_impulse` returns wave `"Correction"` and direction
`"Neutral"`; `detect_direction_and_wave` returns direction `"Neutral"` (with
wave `"Correction/No impulse"`) precisely when neither its all-positive-slopes
nor its all-negative-slopes branch condition holds — a below-threshold slope
magnitude alone does not force Neutral. -/
theorem c4_nonmonotone_amended (rows : List (Option ℚ)) (closes : List ℚ) (a b c : ℚ)
    (h3r : 3 ≤ rows.length) (h3c : 3 ≤ (rows.filterMap id).length)
    (ha : a = (rows.filterMap id).getD ((rows.filterMap id).length - 3) 0)
    (hb : b = (rows.filterMap id).getD ((rows.filterMap id).length - 2) 0)
    (hc : c = (rows.filterMap id).getD ((rows.filterMap id).length - 1) 0)
    (hnot1 : ¬(a < b ∧ b < c)) (hnot2 : ¬(c < b ∧ b < a))
    (h3cl : 3 ≤ closes.length) :
    detect_impulse (some rows) = some ("Correction", "Neutral") ∧
    ((detect_direction_and_wave (some closes)).1 = "Neutral" ↔
      ¬(slope_fast closes > 0 ∧ slope_slow closes > 0 ∧
        ema_fast_last closes > ema_slow_last closes) ∧
      ¬(slope_fast closes < 0 ∧ slope_slow closes < 0 ∧
        ema_fast_last closes < ema_slow_last closes)) := by
  constructor
  · subst ha
    subst hb
    subst hc
    simp only [detect_impulse]
    rw [if_neg (by omega), if_neg (by omega), if_neg hnot1, if_neg hnot2]
  · simp only [detect_direction_and_wave]
    rw [if_neg (by omega), if_neg (by omega)]
    by_cases h1 : slope_fast closes > 0 ∧ slope_slow closes > 0 ∧
        ema_fast_last closes > ema_slow_last closes
    · rw [if_pos h1]
      constructor
      · intro h
        exact absurd h (show ("Buy" : String) ≠ "Neutral" by decide)
      · intro h
        exact absurd h1 h.1
    · rw [if_neg h1]
      by_cases h2 : slope_fast closes < 0 ∧ slope_slow closes < 0 ∧
          ema_fast_last closes < ema_slow_last closes
      · rw [if_pos h2]
        constructor
        · intro h
          exact absurd h (show ("Sell" : String) ≠ "Neutral" by decide)
        · intro h
          exact absurd h2 h.2
      · rw [if_neg h2]
        exact ⟨fun _ => ⟨h1, h2⟩, fun _ => rfl⟩

theorem c4_nonmonotone_witness :
    detect_impulse (some [some 1, some 1, some 1]) = some ("Correction", "Neutral") ∧
    ((detect_direction_and_wave (some [1, 1, 1])).1 = "Neutral" ↔
      ¬(slope_fast [1, 1, 1] > 0 ∧ slope_slow [1, 1, 1] > 0 ∧
        ema_fast_last [1, 1, 1] > ema_slow_last [1, 1, 1]) ∧
      ¬(slope_fast [1, 1, 1] < 0 ∧ slope_slow [1, 1, 1] < 0 ∧
        ema_fast_last [1, 1, 1] < ema_slow_last [1, 1, 1])) :=
  c4_nonmonotone_amended [some 1, some 1, some 1] [1, 1, 1] 1 1 1
    (by norm_num) (by decide) (by decide) (by decide) (by decide)
    (by decide) (by decide) (by norm_num)

/-- Claim C5: both classifiers are deterministic pure functions of their
input frame — identical inputs give identical outputs, with no dependence on
time or external state. -/
theorem c5_deterministic (df1 df2 : Option (List ℚ))
    (dg1 dg2 : Option (List (Option ℚ))) (h : df1 = df2) (h2 : dg1 = dg2) :
    detect_direction_and_wave df1 = detect_direction_and_wave df2 ∧
    detect_impulse dg1 = detect_impulse dg2 := by
  subst h
  subst h2
  exact ⟨rfl, rfl⟩

theorem c5_deterministic_witness :
    detect_direction_and_wave (some [1, 2, 3]) = detect_direction_and_wave (some [1, 2, 3]) ∧
    detect_impulse (some [some 1]) = detect_impulse (some [some 1]) :=
  c5_deterministic (some [1, 2, 3]) (some [1, 2, 3]) (some [some 1]) (some [some 1]) rfl rfl

/-- Claim C6: the slope normalisation is guarded against division by a zero
prior price — when the EMA value three rows back is zero the slope is defined
as 0 instead of performing the division, for both the fast and the slow EMA. -/
theorem c6_zero_division_guard (closes : List ℚ) :
    (prev_fast closes = 0 → slope_fast closes = 0) ∧
    (prev_slow closes = 0 → slope_slow closes = 0) := by
  constructor
  · intro h
    unfold prev_fast at h
    unfold slope_fast emaSlope
    rw [if_neg (not_not_intro h)]
  · intro h
    unfold prev_slow at h
    unfold slope_slow emaSlope
    rw [if_neg (not_not_intro h)]

theorem c6_zero_division_guard_witness :
    prev_fast [0, 0, 0] = 0 ∧ slope_fast [0, 0, 0] = 0 := by
  have h0 : prev_fast [0, 0, 0] = 0 := by
    norm_num [prev_fast, emaPrev, emaSeries, emaFrom, emaStep, FAST_ALPHA]
  exact ⟨h0, (c6_zero_division_guard [0, 0, 0]).1 h0⟩

/-- Claim C7, counterexample: with every configuration variable absent,
`impulse_scanner.py`'s run does not abort — it still performs all three
market-data fetches and merely skips the unconfigured senders. -/
theorem c7_counterexample :
    (mainRun ⟨none, none, none, none, none⟩ ["^NDX", "EURUSD=X", "GBPJPY=X"]
        true true).aborted = false ∧
    (mainRun ⟨none, none, none, none, none⟩ ["^NDX", "EURUSD=X", "GBPJPY=X"]
        true true).fetches = 3 ∧
    telegram_configured ⟨none, none, none, none, none⟩ = false ∧
    email_configured ⟨none, none, none, none, none⟩ = false := by
  exact ⟨rfl, rfl, rfl, rfl⟩

/-- Claim C7 (amended): `2impulse_scanner.py` aborts at import, before any
network call, when `BOT_TOKEN` or `CHAT_ID` is missing/empty; in
`impulse_scanner.py` missing configuration is not fatal — the run never
aborts, all symbols are still fetched, and the unconfigured sender just
reports failure. -/
theorem c7_config_amended :
    (∀ bot chat : Option String,
      envTruthy bot = false ∨ envTruthy chat = false →
        startup_aborts bot chat = true) ∧
    (∀ (e : Env) (syms : List String) (tgOk emOk : Bool),
      (mainRun e syms tgOk emOk).aborted = false ∧
      (mainRun e syms tgOk emOk).fetches = syms.length ∧
      (telegram_configured e = false → (mainRun e syms tgOk emOk).telegram_sent = false) ∧
      (email_configured e = false → (mainRun e syms tgOk emOk).email_sent = false)) := by
  constructor
  · intro bot chat h
    unfold startup_aborts
    rcases h with h | h <;> simp [h]
  · intro e syms tgOk emOk
    refine ⟨rfl, rfl, ?_, ?_⟩ <;> intro h <;> simp [mainRun, h]

theorem c7_config_witness :
    startup_aborts none (some "123") = true ∧
    (mainRun ⟨some "t", some "c", none, none, none⟩ ["^NDX"] true true).email_sent = false :=
  ⟨c7_config_amended.1 none (some "123") (Or.inl rfl),
   (c7_config_amended.2 ⟨some "t", some "c", none, none, none⟩ ["^NDX"] true true).2.2.2 rfl⟩

/-- Claim C8, counterexample: in `2impulse_scanner.py`'s `build_report` a
symbol whose fetch failed is NOT skipped — it still appears in the report
with wave `"Unknown"`, short direction `"Neutral"` and the higher-timeframe
bias as final direction. -/
theorem c8_counterexample :
    symbol_block "NAS100" "^NDX" none none =
      some ["NAS100 (^NDX):",
        "  Wave: Unknown | Short: Neutral | HTF bias: Neutral -> Final: Neutral", ""] ∧
    (report_blocks [("NAS100", "^NDX", none, none)]).length = 1 := by
  exact ⟨by decide, rfl⟩

/-- Claim C8 (amended): in `impulse_scanner.py`'s `scan_all` a failed fetch
contributes the part `"<symbol> - No data"` while the loop continues, every
symbol keeps exactly one part, and each part depends only on that symbol's
own fetch result; in `2impulse_scanner.py`'s `build_report` a failed fetch is
not skipped — the symbol is still reported (wave `"Unknown"`, short direction
`"Neutral"`, final direction the higher-timeframe bias) and each symbol's
block likewise depends only on its own fetch results. -/
theorem c8_fetch_failure_amended :
    (∀ s : String, scan_one s none = s ++ " - No data") ∧
    (∀ fetched : List (String × Option (List Row)),
      (scan_parts fetched).length = fetched.length) ∧
    (∀ (f1 f2 : List (String × Option (List Row))) (j : ℕ),
      f1[j]? = f2[j]? → (scan_parts f1)[j]? = (scan_parts f2)[j]?) ∧
    (∀ (i1 i2 : List (String × String × Option (List (Option ℚ)) × Option (List ℚ)))
      (j : ℕ), i1[j]? = i2[j]? → (report_blocks i1)[j]? = (report_blocks i2)[j]?) ∧
    (∀ (name symTicker : String) (df1h : Option (List ℚ)),
      symbol_block name symTicker none df1h =
        some [name ++ " (" ++ symTicker ++ "):",
          "  Wave: Unknown | Short: Neutral | HTF bias: " ++ higher_timeframe_bias df1h ++
            " -> Final: " ++ higher_timeframe_bias df1h, ""]) := by
  refine ⟨fun s => rfl, fun fetched => by simp [scan_parts], ?_, ?_, ?_⟩
  · intro f1 f2 j h
    simp only [scan_parts, List.getElem?_map, h]
  · intro i1 i2 j h
    simp only [report_blocks, List.getElem?_map, h]
  · intro name symTicker df1h
    rfl

theorem c8_fetch_failure_witness :
    scan_one "^NDX" none = "^NDX - No data" ∧
    (scan_parts [("^NDX", none), ("EURUSD=X", none)])[1]? =
      (scan_parts [("GBPJPY=X", none), ("EURUSD=X", none)])[1]? :=
  ⟨c8_fetch_failure_amended.1 "^NDX",
   c8_fetch_failure_amended.2.2.1 [("^NDX", none), ("EURUSD=X", none)]
     [("GBPJPY=X", none), ("EURUSD=X", none)] 1 rfl⟩

/-- Claim C9: an `"Impulse"` wave is only ever paired with direction `"Buy"`
or `"Sell"` — never with `"Neutral"` or `"Unknown"` — in both classifiers. -/
theorem c9_impulse_pairing (df : Option (List ℚ)) (df2 : Option (List (Option ℚ))) :
    ((detect_direction_and_wave df).2 = "Impulse" →
      (detect_direction_and_wave df).1 = "Buy" ∨
      (detect_direction_and_wave df).1 = "Sell") ∧
    (∀ w d, detect_impulse df2 = some (w, d) → w = "Impulse" →
      d = "Buy" ∨ d = "Sell") := by
  constructor
  · cases df with
    | none => exact fun h => absurd h (show ("No data" : String) ≠ "Impulse" by decide)
    | some closes =>
      simp only [detect_direction_and_wave]
      split
      · exact fun h => absurd h (show ("No data" : String) ≠ "Impulse" by decide)
      · split
        · exact fun h =>
            absurd h (show ("Insufficient data" : String) ≠ "Impulse" by decide)
        · split
          · exact fun _ => Or.inl rfl
          · split
            · exact fun _ => Or.inr rfl
            · exact fun h =>
                absurd h (show ("Correction/No impulse" : String) ≠ "Impulse" by decide)
  · cases df2 with
    | none =>
      intro w d h hw
      rw [show detect_impulse none = some ("Unknown", "Neutral") from rfl,
        Option.some.injEq] at h
      injection h with h1 h2
      rw [← h1] at hw
      exact absurd hw (show ("Unknown" : String) ≠ "Impulse" by decide)
    | some rows =>
      simp only [detect_impulse]
      intro w d
      split
      · intro h hw
        rw [Option.some.injEq] at h
        injection h with h1 h2
        rw [← h1] at hw
        exact absurd hw (show ("Unknown" : String) ≠ "Impulse" by decide)
      · split
        · intro h
          exact absurd h (by simp)
        · split
          · intro h _
            rw [Option.some.injEq] at h
            injection h with h1 h2
            rw [← h2]
            exact Or.inl rfl
          · split
            · intro h _
              rw [Option.some.injEq] at h
              injection h with h1 h2
              rw [← h2]
              exact Or.inr rfl
            · intro h hw
              rw [Option.some.injEq] at h
              injection h with h1 h2
              rw [← h1] at hw
              exact absurd hw (show ("Correction" : String) ≠ "Impulse" by decide)

theorem c9_impulse_pairing_witness :
    (detect_direction_and_wave (some [100, 101, 102])).2 = "Impulse" ∧
    ((detect_direction_and_wave (some [100, 101, 102])).1 = "Buy" ∨
      (detect_direction_and_wave (some [100, 101, 102])).1 = "Sell") := by
  have h2 : (detect_direction_and_wave (some [100, 101, 102])).2 = "Impulse" := by
    norm_num [detect_direction_and_wave, slope_fast, slope_slow, ema_fast_last,
      ema_slow_last, emaSlope, emaPrev, emaLast, emaSeries, emaFrom, emaStep,
      FAST_ALPHA, SLOW_ALPHA]
  exact ⟨h2, (c9_impulse_pairing (some [100, 101, 102]) none).1 h2⟩

/-- Claim C10: `detect_impulse` depends only on the last three non-NaN
closes — two frames of length at least 3 whose `dropna()`-ed close columns
(each with at least 3 entries) agree on their last three entries get the same
(wave, direction) result, whatever the earlier candles are. -/
theorem c10_last_three_determine (r1 r2 : List (Option ℚ))
    (h1 : 3 ≤ r1.length) (h2 : 3 ≤ r2.length)
    (hc1 : 3 ≤ (r1.filterMap id).length) (hc2 : 3 ≤ (r2.filterMap id).length)
    (hlast : (r1.filterMap id).drop ((r1.filterMap id).length - 3) =
             (r2.filterMap id).drop ((r2.filterMap id).length - 3)) :
    detect_impulse (some r1) = detect_impulse (some r2) := by
  have key : ∀ k : ℕ,
      (r1.filterMap id).getD ((r1.filterMap id).length - 3 + k) 0 =
      (r2.filterMap id).getD ((r2.filterMap id).length - 3 + k) 0 := by
    intro k
    rw [getD_add_drop, getD_add_drop, hlast]
  have k0 : (r1.filterMap id).getD ((r1.filterMap id).length - 3) 0 =
      (r2.filterMap id).getD ((r2.filterMap id).length - 3) 0 := by
    simpa using key 0
  have k1 := key 1
  have k2 := key 2
  have g1 : ¬(r1.length < 3) := by omega
  have g2 : ¬((r1.filterMap id).length < 3) := by omega
  have g3 : ¬(r2.length < 3) := by omega
  have g4 : ¬((r2.filterMap id).length < 3) := by omega
  have e1 : (r1.filterMap id).length - 2 = (r1.filterMap id).length - 3 + 1 := by omega
  have e2 : (r1.filterMap id).length - 1 = (r1.filterMap id).length - 3 + 2 := by omega
  have e3 : (r2.filterMap id).length - 2 = (r2.filterMap id).length - 3 + 1 := by omega
  have e4 : (r2.filterMap id).length - 1 = (r2.filterMap id).length - 3 + 2 := by omega
  simp only [detect_impulse]
  rw [if_neg g1, if_neg g2, if_neg g3, if_neg g4, e1, e2, e3, e4, k0, k1, k2]

theorem c10_last_three_witness :
    detect_impulse (some [some 9, none, some 2, some 3, some 4]) =
      detect_impulse (some [some 1, some 2, some 3, some 4]) :=
  c10_last_three_determine [some 9, none, some 2, some 3, some 4]
    [some 1, some 2, some 3, some 4]
    (by decide) (by decide) (by decide) (by decide) (by decide)
